import Mathlib

/-!
Verification of the Lucerna repository's core logic against its specification.

The development shallowly embeds three pieces of the source:
* the chatbot's rule-based response selector
  (`src/src/components/ChatBot.tsx`, `getResponse`),
* the daily-streak updater (`updateStreak` in the server route file),
* the menstrual-cycle predictor (the `period/:userId` GET route in the
  server route file).

Modelling conventions:
* Calendar dates are whole-day integers (days since the Unix epoch).  The
  source stores dates as `YYYY-MM-DD` strings and differences are computed
  with `Math.floor((a - b) / 86400000)`, which on day-aligned dates is the
  plain integer difference used here.  `daysFromCivil` converts a civil
  calendar date to that day number so concrete test dates can be written
  out.
* `Math.random()`-based template selection is modelled by a `rnd : Nat`
  parameter; `pick l rnd` selects element `rnd % l.length`, which ranges
  over exactly the indices `Math.floor(Math.random() * l.length)` can
  produce.
* JavaScript string lower-casing is modelled for ASCII letters (every
  keyword in the source is ASCII).
* The source reads `responses[lastQuestion]` with a dynamic key; a key
  absent from the record yields `undefined` and the subsequent index throws.
  That is modelled by `responsesMap : String → Option (List String)` and a
  `getResponse` result type of `Option RespondResult`, `none` standing for
  the thrown `TypeError`.
-/

set_option maxRecDepth 4000

namespace Lucerna

/-! ### String helpers (JavaScript `toLowerCase` and `includes`) -/

/-- ASCII lower-casing of one character, as `toLowerCase` acts on the
ASCII range. -/
def lowerChar (c : Char) : Char :=
  if 'A' ≤ c ∧ c ≤ 'Z' then Char.ofNat (c.toNat + 32) else c

/-- ASCII lower-casing of a string. -/
def lowerStr (s : String) : String := ⟨s.data.map lowerChar⟩

/-- Does `pat` occur at the very start of the character list? -/
def matchesAt : List Char → List Char → Bool
  | [], _ => true
  | _ :: _, [] => false
  | p :: ps, c :: cs => p == c && matchesAt ps cs

/-- Does `pat` occur anywhere in the character list? -/
def occursIn (pat : List Char) : List Char → Bool
  | [] => matchesAt pat []
  | c :: cs => matchesAt pat (c :: cs) || occursIn pat cs

/-- JavaScript `s.includes(pat)`: substring containment. -/
def strIncludes (s pat : String) : Bool := occursIn pat.data s.data

/-- Uniform template selection: `Math.floor(Math.random() * l.length)`
produces an index in `[0, l.length)`, modelled by `rnd % l.length`. -/
def pick (l : List String) (rnd : Nat) : String := l.getD (rnd % l.length) ""

/-! ### ChatBot response selection (`getResponse` in `ChatBot.tsx`) -/

/-- The `QuestionType` union of the source:
`'breakfast' | 'lunch' | 'dinner' | 'mood' | 'none'`. -/
inductive QuestionType
  | breakfast
  | lunch
  | dinner
  | mood
  | none
  deriving DecidableEq

/-- The string key the source uses when indexing `responses[lastQuestion]`. -/
def questionKey : QuestionType → String
  | QuestionType.breakfast => "breakfast"
  | QuestionType.lunch => "lunch"
  | QuestionType.dinner => "dinner"
  | QuestionType.mood => "mood"
  | QuestionType.none => "none"

def breakfastTemplates : List String :=
  ["Great! A good breakfast fuels your day. What did you have? 😊",
   "Awesome! Starting the day with food is so important for your energy and mood!"]

def nobreakfastTemplates : List String :=
  ["Oh honey, why did you skip breakfast? It\x27s the most important meal of the day! 🍳 Please try to eat something small.",
   "Is there a reason you didn\x27t eat, my dear? Your body needs energy! Try to grab a quick snack if you can. 🍌"]

def lunchTemplates : List String :=
  ["Wonderful! Taking time to eat is an act of self-care. Hope it was tasty! 🍱",
   "That\x27s great! Proper nutrition helps with mood regulation. What did you enjoy?"]

def nolunchTemplates : List String :=
  ["Why didn\x27t you have lunch, sweetie? Skipping meals can affect your mood. 🥗 Please eat something to fuel your body!",
   "Oh no! Is everything okay? Try to take a break and eat something. You deserve to be nourished! 🥪"]

def dinnerTemplates : List String :=
  ["Perfect! Ending the day with a good meal. Hope you\x27re relaxing now! 🌙",
   "That\x27s wonderful! A good dinner can help you unwind from the day."]

def nodinnerTemplates : List String :=
  ["Why haven\x27t you had dinner yet? It\x27s important to eat before bed. 🌙 Please find something to eat!",
   "Is there a reason you skipped dinner? A light meal can help you sleep better. Please take care of yourself! 🥣"]

def funfactTemplates : List String :=
  ["Fun fact: Smiling, even when you don\x27t feel like it, can actually improve your mood! 😊",
   "Did you know? Laughing for 10-15 minutes can burn approximately 40 calories! 😄",
   "Fun fact: Your brain uses 20% of your body\x27s energy, even though it\x27s only 2% of your body weight! 🧠",
   "Did you know? Chocolate releases endorphins - the same feel-good chemicals released when you\x27re happy! 🍫",
   "Fun fact: Hugging for 20 seconds releases oxytocin, which can make you feel happier! 🤗",
   "Did you know? Listening to music can boost your immune system and reduce stress! 🎵",
   "Fun fact: Plants in your room can reduce stress levels by up to 60%! 🌱"]

def yesTemplates : List String :=
  ["That\x27s wonderful! I\x27m so glad to hear that! 😊",
   "Great! Keep up the good self-care! 💪"]

def noTemplates : List String :=
  ["That\x27s okay! What can I help you with? I\x27m here for you. 💙",
   "No worries! Would you like to talk about anything?"]

def sadTemplates : List String :=
  ["I\x27m sorry you\x27re feeling down, honey. Remember, it\x27s okay to have difficult days. Would you like to try a breathing exercise?",
   "Your feelings are valid, my dear. What\x27s one small thing that might help you feel a bit better right now?"]

def happyTemplates : List String :=
  ["That\x27s wonderful! I\x27m so glad you\x27re feeling good! What\x27s bringing you joy today? 😊",
   "Awesome! It\x27s great to hear you\x27re in a positive space. Keep that energy flowing!"]

def stressedTemplates : List String :=
  ["Stress can be tough. Remember to breathe, darling. Have you tried the relaxing games in the app?",
   "Let\x27s take it one step at a time. What\x27s the main thing on your mind right now?"]

def anxiousTemplates : List String :=
  ["Anxiety is challenging, but you\x27re not alone. Try the 4-7-8 breathing technique: breathe in for 4, hold for 7, out for 8.",
   "I hear you. Sometimes when we\x27re anxious, grounding techniques help. Can you name 5 things you can see around you?"]

def defaultTemplates : List String :=
  ["I\x27m here to listen, honey. Tell me more about how you\x27re feeling.",
   "Thank you for sharing. Your mental health matters. What can I help you with today?",
   "I appreciate you opening up. Would you like to explore the mood tracker or journal features?"]

def crisisTemplates : List String :=
  ["I\x27m really concerned about you. Please know that you\x27re not alone, and there are people who care about you and want to help. I\x27m opening your emergency contacts now - please reach out to someone you trust or call a crisis helpline immediately. Your life matters. 💙",
   "I hear that you\x27re going through an incredibly difficult time. Please don\x27t face this alone. I\x27m showing you emergency resources right now. There are people trained to help you through this. You deserve support and care. 🫂"]

/-- The `responses` record of the source as a partial map from key to
template list: a key absent from the record yields `undefined` in
JavaScript, here `Option.none`. -/
def responsesMap : String → Option (List String)
  | "breakfast" => some breakfastTemplates
  | "nobreakfast" => some nobreakfastTemplates
  | "lunch" => some lunchTemplates
  | "nolunch" => some nolunchTemplates
  | "dinner" => some dinnerTemplates
  | "nodinner" => some nodinnerTemplates
  | "funfact" => some funfactTemplates
  | "yes" => some yesTemplates
  | "no" => some noTemplates
  | "sad" => some sadTemplates
  | "happy" => some happyTemplates
  | "stressed" => some stressedTemplates
  | "anxious" => some anxiousTemplates
  | "default" => some defaultTemplates
  | "crisis" => some crisisTemplates
  | _ => Option.none

/-- The fixed crisis keyword list of `getResponse`. -/
def crisisKeywords : List String :=
  ["suicide", "suicidal", "kill myself", "end my life", "want to die",
   "die", "death", "dying", "dead", "harm myself", "hurt myself",
   "no reason to live", "better off dead", "end it all"]

/-- `crisisKeywords.some(keyword => lowercaseMessage.includes(keyword))`. -/
def hasCrisisKeyword (m : String) : Bool :=
  crisisKeywords.any (fun k => strIncludes m k)

def affirmativeTokens : List String := ["yes", "yeah", "yep", "sure"]

def negativeTokens : List String := ["no", "nah", "nope"]

/-- Affirmative-token containment test of the yes/no resolution step. -/
def affirmHit (m : String) : Bool := affirmativeTokens.any (fun w => strIncludes m w)

/-- Negative-token containment test of the yes/no resolution step. -/
def negHit (m : String) : Bool := negativeTokens.any (fun w => strIncludes m w)

/-- First condition of the general keyword table (fun-fact topic). -/
def funfactTrigger (m : String) : Bool :=
  strIncludes m "fun fact" || strIncludes m "fact" || strIncludes m "tell me something"

/-- Second condition of the general keyword table (sadness topic). -/
def sadTrigger (m : String) : Bool :=
  strIncludes m "sad" || strIncludes m "down" || strIncludes m "depressed"

/-- Third condition of the general keyword table (happiness topic). -/
def happyTrigger (m : String) : Bool :=
  strIncludes m "happy" || strIncludes m "good" || strIncludes m "great"

/-- Fourth condition of the general keyword table (stress topic). -/
def stressedTrigger (m : String) : Bool :=
  strIncludes m "stress" || strIncludes m "overwhelm"

/-- Fifth condition of the general keyword table (anxiety topic). -/
def anxiousTrigger (m : String) : Bool :=
  strIncludes m "anxious" || strIncludes m "anxiety" || strIncludes m "worry"

/-- The general keyword-matching tail of `getResponse`, applied to the
already lower-cased message. -/
def generalResponse (m : String) (rnd : Nat) : String :=
  if funfactTrigger m then pick funfactTemplates rnd
  else if sadTrigger m then pick sadTemplates rnd
  else if happyTrigger m then pick happyTemplates rnd
  else if stressedTrigger m then pick stressedTemplates rnd
  else if anxiousTrigger m then pick anxiousTemplates rnd
  else pick defaultTemplates rnd

/-- Result of one `getResponse` call: the reply text, the `lastQuestion`
state after the call (the source mutates it via `setLastQuestion`), and
whether the `onEmergency` callback fired. -/
structure RespondResult where
  reply : String
  newPending : QuestionType
  emergency : Bool
  deriving DecidableEq

/-- The `getResponse` function of `ChatBot.tsx`: crisis check first, then
context-aware yes/no resolution, then the general keyword table.  `none`
models the `TypeError` thrown when `responses[lastQuestion]` is
`undefined` (possible only for the never-assigned `mood` variant). -/
def getResponse (userMessage : String) (lastQuestion : QuestionType) (rnd : Nat) :
    Option RespondResult :=
  if hasCrisisKeyword (lowerStr userMessage) then
    some ⟨pick crisisTemplates rnd, lastQuestion, true⟩
  else if lastQuestion ≠ QuestionType.none ∧ affirmHit (lowerStr userMessage) = true then
    (responsesMap (questionKey lastQuestion)).map
      (fun l => ⟨pick l rnd, QuestionType.none, false⟩)
  else if lastQuestion ≠ QuestionType.none ∧ negHit (lowerStr userMessage) = true then
    (responsesMap ("no" ++ questionKey lastQuestion)).map
      (fun l => ⟨pick l rnd, QuestionType.none, false⟩)
  else
    some ⟨generalResponse (lowerStr userMessage) rnd, lastQuestion, false⟩

/-! ### Streak updater (`updateStreak` in the server route file) -/

/-- The streak record stored under `user:<id>:streak`:
`{ current, longest, lastDate }`, dates as whole-day numbers. -/
structure StreakState where
  current : Int
  longest : Int
  lastDate : Option Int
  deriving DecidableEq

/-- The new `streak.current` computed by `updateStreak`: `diffDays === 1`
increments, `diffDays > 1` restarts at 1, otherwise (same day or earlier
day) the run is kept; a null `lastDate` means first check-in. -/
def nextRun (current : Int) (lastDate : Option Int) (date : Int) : Int :=
  match lastDate with
  | some last =>
    if date - last = 1 then current + 1
    else if date - last > 1 then 1
    else current
  | Option.none => 1

/-- The `updateStreak` function of the server: recompute `current`, then
`longest = max(longest, current)` and `lastDate = date`. -/
def updateStreak (streak : StreakState) (date : Int) : StreakState :=
  { current := nextRun streak.current streak.lastDate date,
    longest := max streak.longest (nextRun streak.current streak.lastDate date),
    lastDate := some date }

/-- The `{ current: 0, longest: 0, lastDate: null }` default used when no
streak record exists yet. -/
def initialStreak : StreakState := { current := 0, longest := 0, lastDate := Option.none }

/-- The invariant stated by the spec for `StreakState`:
both counters non-negative and `longest ≥ current`. -/
def streakInv (s : StreakState) : Prop := 0 ≤ s.current ∧ s.current ≤ s.longest

/-! ### Cycle predictor (the `period/:userId` GET route) -/

/-- One stored period record; the predictor only reads `startDate`
(a whole-day number). -/
structure CycleEvent where
  id : Nat
  startDate : Int
  endDate : Option Int
  symptoms : List String
  deriving DecidableEq

/-- The prediction object returned by the route. -/
structure CyclePrediction where
  nextPeriodDate : Int
  averageCycleLength : Int
  daysUntilNext : Int
  deriving DecidableEq

/-- The comparator `(a, b) => b.startDate - a.startDate`: descending by
start date. -/
def cycleSortLE (a b : CycleEvent) : Prop := b.startDate ≤ a.startDate

instance : DecidableRel cycleSortLE := fun a b => Int.decLe b.startDate a.startDate

/-- `periods.sort((a, b) => b.startDate - a.startDate)`. -/
def sortPeriods (l : List CycleEvent) : List CycleEvent := List.insertionSort cycleSortLE l

/-- The sanity bound of the averaging loop: `diff > 0 && diff < 60`. -/
def keepDiff (d : Int) : Bool := decide (0 < d ∧ d < 60)

/-- The averaging loop of the route: walk adjacent pairs of the sorted
list accumulating `(totalCycleLength, cycleCount)` over the diffs passing
the sanity bound. -/
def cycleSums : List CycleEvent → Int × Nat
  | a :: b :: rest =>
    let p := cycleSums (b :: rest)
    if keepDiff (a.startDate - b.startDate) then (p.1 + (a.startDate - b.startDate), p.2 + 1)
    else p
  | _ => (0, 0)

/-- `Math.round(total / count)` for `total ≥ 0, count > 0`: round half up,
computed exactly on integers. -/
def jsRound (total : Int) (count : Nat) : Int := (2 * total + count) / (2 * count)

/-- `cycleCount > 0 ? Math.round(totalCycleLength / cycleCount) : 28`. -/
def cycleAvg (sorted : List CycleEvent) : Int :=
  if (cycleSums sorted).2 > 0 then jsRound (cycleSums sorted).1 (cycleSums sorted).2 else 28

/-- Placeholder event for head access on a list already known non-empty. -/
def defaultEvent : CycleEvent := ⟨0, 0, Option.none, []⟩

/-- The route's prediction: `null` for an empty history, otherwise the most
recent start date plus the average cycle length, `daysUntilNext` relative
to `today`. -/
def predictNextCycle (periods : List CycleEvent) (today : Int) : Option CyclePrediction :=
  if periods.isEmpty then Option.none
  else
    some { nextPeriodDate :=
             ((sortPeriods periods).headD defaultEvent).startDate + cycleAvg (sortPeriods periods),
           averageCycleLength := cycleAvg (sortPeriods periods),
           daysUntilNext :=
             ((sortPeriods periods).headD defaultEvent).startDate + cycleAvg (sortPeriods periods)
               - today }

/-! ### Specification-side characterisations used to state the claims -/

/-- The adjacent-pair differences `newer.startDate - older.startDate` of a
list, in order. -/
def adjDiffs : List CycleEvent → List Int
  | a :: b :: rest => (a.startDate - b.startDate) :: adjDiffs (b :: rest)
  | _ => []

/-- The spec's description of the average: the rounded mean of the
adjacent differences passing the `0 < diff < 60` bound, or the default 28
when none pass. -/
def avgSpec (events : List CycleEvent) : Int :=
  if 0 < ((adjDiffs (sortPeriods events)).filter keepDiff).length then
    jsRound ((adjDiffs (sortPeriods events)).filter keepDiff).sum
      ((adjDiffs (sortPeriods events)).filter keepDiff).length
  else 28

/-- The most recent event of a non-empty history: head of the
descending-sorted list. -/
def mostRecent (events : List CycleEvent) : CycleEvent :=
  (sortPeriods events).headD defaultEvent

/-- Day number (days since 1970-01-01) of a civil calendar date, used to
write concrete test dates.  Standard days-from-civil conversion. -/
def daysFromCivil (y m d : Int) : Int :=
  let yy := if m ≤ 2 then y - 1 else y
  let era := (if 0 ≤ yy then yy else yy - 399) / 400
  let yoe := yy - era * 400
  let mp := (m + 9) % 12
  let doy := (153 * mp + 2) / 5 + d - 1
  let doe := yoe * 365 + yoe / 4 - yoe / 100 + doy
  era * 146097 + doe - 719468

/-! ### Helper lemmas -/

theorem pick_mem (l : List String) (rnd : Nat) (h : l ≠ []) : pick l rnd ∈ l := by
  have hlen : rnd % l.length < l.length := Nat.mod_lt _ (List.length_pos.mpr h)
  unfold pick
  rw [List.getD_eq_getElem l "" hlen]
  exact List.getElem_mem hlen

theorem pick_ne (l : List String) (rnd : Nat) (h : l ≠ []) (h2 : ∀ x ∈ l, x ≠ "") :
    pick l rnd ≠ "" :=
  h2 (pick l rnd) (pick_mem l rnd h)

theorem generalResponse_ne (m : String) (rnd : Nat) : generalResponse m rnd ≠ "" := by
  unfold generalResponse
  repeat' split
  all_goals exact pick_ne _ _ (by decide) (by decide)

/-! ### Claims about the streak updater -/

/-- **C2.** `updateStreak`: a first event sets the run to 1, a
consecutive-day event (`Δ = 1`) increments it, a gap (`Δ > 1`) resets it
to 1 whatever its prior value; five consecutive-day calls starting from the
fresh state end with `current = 5` and `longest ≥ 5`. -/
theorem c2_streak_rules :
    (∀ (s : StreakState) (d : Int), s.lastDate = Option.none →
        (updateStreak s d).current = 1) ∧
    (∀ (s : StreakState) (d l : Int), s.lastDate = some l → d - l = 1 →
        (updateStreak s d).current = s.current + 1) ∧
    (∀ (s : StreakState) (d l : Int), s.lastDate = some l → d - l > 1 →
        (updateStreak s d).current = 1) ∧
    ((updateStreak (updateStreak (updateStreak (updateStreak
        (updateStreak initialStreak 0) 1) 2) 3) 4).current = 5 ∧
      5 ≤ (updateStreak (updateStreak (updateStreak (updateStreak
        (updateStreak initialStreak 0) 1) 2) 3) 4).longest) := by
  refine ⟨?_, ?_, ?_, by decide⟩
  · intro s d h
    simp only [updateStreak, nextRun, h]
  · intro s d l h h1
    simp only [updateStreak, nextRun, h, h1, if_pos]
  · intro s d l h h1
    have hne : ¬(d - l = 1) := by omega
    simp only [updateStreak, nextRun, h, if_neg hne, if_pos h1]

/-- Witness for C2 at a concrete consecutive-day input. -/
theorem c2_streak_rules_witness :
    (updateStreak ⟨3, 4, some 7⟩ 8).current = 3 + 1 :=
  c2_streak_rules.2.1 ⟨3, 4, some 7⟩ 8 7 rfl (by decide)

/-- **C6.** The invariant `0 ≤ current ≤ longest` holds in the fresh
streak state and is preserved by every `updateStreak` call. -/
theorem c6_streak_invariant :
    streakInv initialStreak ∧
    ∀ (s : StreakState) (d : Int), streakInv s → streakInv (updateStreak s d) := by
  constructor
  · exact ⟨le_refl 0, le_refl 0⟩
  · intro s d hs
    refine ⟨?_, le_max_right _ _⟩
    show (0 : Int) ≤ nextRun s.current s.lastDate d
    unfold nextRun
    cases s.lastDate with
    | none => norm_num
    | some l =>
      by_cases h1 : d - l = 1
      · simp only [if_pos h1]
        have := hs.1
        omega
      · by_cases h2 : d - l > 1
        · simp only [if_neg h1, if_pos h2]
          norm_num
        · simp only [if_neg h1, if_neg h2]
          exact hs.1

/-- Witness for C6 on a concrete state. -/
theorem c6_streak_invariant_witness :
    streakInv (updateStreak ⟨2, 5, some 3⟩ 4) :=
  c6_streak_invariant.2 ⟨2, 5, some 3⟩ 4 ⟨by decide, by decide⟩

/-- **C7.** `updateStreak` is idempotent in the event date: applying it a
second time with the same date changes nothing (`Δ = 0` keeps the run, and
the longest run is already an upper bound). -/
theorem c7_streak_idempotent (s : StreakState) (d : Int) :
    updateStreak (updateStreak s d) d = updateStreak s d := by
  unfold updateStreak
  have h0 : d - d = (0 : Int) := sub_self d
  simp only [nextRun, h0]
  norm_num

/-- **C10.** An out-of-order event (dated strictly before the recorded
last event) leaves both run counters unchanged but still overwrites
`lastDate` with the earlier date. -/
theorem c10_streak_backdate (s : StreakState) (l d : Int)
    (h1 : s.lastDate = some l) (h2 : d < l) (h3 : s.current ≤ s.longest) :
    (updateStreak s d).current = s.current ∧
    (updateStreak s d).longest = s.longest ∧
    (updateStreak s d).lastDate = some d := by
  have hne : ¬(d - l = 1) := by omega
  have hng : ¬(d - l > 1) := by omega
  simp only [updateStreak, nextRun, h1, if_neg hne, if_neg hng]
  refine ⟨trivial, max_eq_left h3, trivial⟩

/-- Witness for C10: back-dated event at a concrete state. -/
theorem c10_streak_backdate_witness :
    (updateStreak ⟨2, 3, some 10⟩ 7).current = 2 ∧
    (updateStreak ⟨2, 3, some 10⟩ 7).longest = 3 ∧
    (updateStreak ⟨2, 3, some 10⟩ 7).lastDate = some 7 :=
  c10_streak_backdate ⟨2, 3, some 10⟩ 10 7 rfl (by decide) (by decide)

/-! ### Claims about the cycle predictor -/

instance : IsTotal CycleEvent cycleSortLE :=
  ⟨fun a b => le_total b.startDate a.startDate⟩

instance : IsTrans CycleEvent cycleSortLE :=
  ⟨fun _ _ _ h1 h2 => le_trans h2 h1⟩

/-- The accumulating loop of the route equals sum and count of the
filtered adjacent-difference list. -/
theorem cycleSums_eq (l : List CycleEvent) :
    cycleSums l = (((adjDiffs l).filter keepDiff).sum, ((adjDiffs l).filter keepDiff).length) := by
  induction l with
  | nil => rfl
  | cons a t ih =>
    cases t with
    | nil => rfl
    | cons b r =>
      simp only [cycleSums, adjDiffs, List.filter, ih]
      by_cases h : keepDiff (a.startDate - b.startDate) = true
      · simp only [h, if_pos, List.sum_cons, List.length_cons]
        rw [Prod.mk.injEq]
        exact ⟨add_comm _ _, rfl⟩
      · simp only [Bool.not_eq_true] at h
        simp only [h, Bool.false_eq_true, if_false]

theorem sortPeriods_sorted (l : List CycleEvent) :
    List.Sorted cycleSortLE (sortPeriods l) :=
  List.sorted_insertionSort cycleSortLE l

theorem sortPeriods_perm (l : List CycleEvent) : (sortPeriods l).Perm l :=
  List.perm_insertionSort cycleSortLE l

theorem mostRecent_max (events : List CycleEvent) :
    ∀ e ∈ events, e.startDate ≤ (mostRecent events).startDate := by
  intro e he
  have hp := sortPeriods_perm events
  have hs := sortPeriods_sorted events
  have he2 : e ∈ sortPeriods events := hp.mem_iff.mpr he
  unfold mostRecent
  cases hsp : sortPeriods events with
  | nil =>
    rw [hsp] at he2
    exact absurd he2 (List.not_mem_nil e)
  | cons hd tl =>
    rw [hsp] at he2 hs
    simp only [List.headD_cons]
    rcases List.mem_cons.mp he2 with h | h
    · rw [h]
    · exact List.rel_of_sorted_cons hs e h

/-- **C8.** The predictor returns `null` exactly on an empty event
history. -/
theorem c8_null_iff_empty (events : List CycleEvent) (today : Int) :
    predictNextCycle events today = Option.none ↔ events = [] := by
  cases events with
  | nil => simp [predictNextCycle]
  | cons a t => simp [predictNextCycle]

/-- **C3.** For a non-empty history the prediction exists; the sorted list
is a descending-by-start-date permutation of the input whose head is the
most recent event; the average is the rounded mean of the adjacent
differences passing `0 < diff < 60` (default 28 when none pass); and the
next date is the most recent start date plus that average.  Concretely,
events on 2024-01-01, 2024-01-29 and 2024-02-26 predict average 28 and next
date 2024-03-25, and a history with a 90-day gap (days 0, 90, 118) excludes
the gap, again predicting average 28. -/
theorem c3_prediction :
    (∀ (events : List CycleEvent) (today : Int), events ≠ [] →
      predictNextCycle events today =
        some { nextPeriodDate := (mostRecent events).startDate + avgSpec events,
               averageCycleLength := avgSpec events,
               daysUntilNext := (mostRecent events).startDate + avgSpec events - today } ∧
      List.Sorted cycleSortLE (sortPeriods events) ∧
      (sortPeriods events).Perm events ∧
      (∀ e ∈ events, e.startDate ≤ (mostRecent events).startDate)) ∧
    (predictNextCycle
        [⟨1, daysFromCivil 2024 1 1, Option.none, []⟩,
         ⟨2, daysFromCivil 2024 1 29, Option.none, []⟩,
         ⟨3, daysFromCivil 2024 2 26, Option.none, []⟩] 0).map
        (fun p => (p.averageCycleLength, p.nextPeriodDate)) =
      some (28, daysFromCivil 2024 3 25) ∧
    (predictNextCycle
        [⟨1, 0, Option.none, []⟩, ⟨2, 90, Option.none, []⟩, ⟨3, 118, Option.none, []⟩] 0).map
        (fun p => (p.averageCycleLength, p.nextPeriodDate)) =
      some (28, 146) := by
  refine ⟨?_, by decide, by decide⟩
  intro events today h
  have hne : events.isEmpty = false := by
    cases events with
    | nil => exact absurd rfl h
    | cons a t => rfl
  have havg : cycleAvg (sortPeriods events) = avgSpec events := by
    unfold cycleAvg avgSpec
    rw [cycleSums_eq]
  refine ⟨?_, sortPeriods_sorted events, sortPeriods_perm events, mostRecent_max events⟩
  unfold predictNextCycle mostRecent
  rw [hne]
  simp only [Bool.false_eq_true, if_false, havg]

/-- Witness for C3 at a one-event history. -/
theorem c3_prediction_witness :
    predictNextCycle [⟨7, 100, Option.none, []⟩] 0 =
      some { nextPeriodDate := (mostRecent [⟨7, 100, Option.none, []⟩]).startDate +
               avgSpec [⟨7, 100, Option.none, []⟩],
             averageCycleLength := avgSpec [⟨7, 100, Option.none, []⟩],
             daysUntilNext := (mostRecent [⟨7, 100, Option.none, []⟩]).startDate +
               avgSpec [⟨7, 100, Option.none, []⟩] - 0 } ∧
    List.Sorted cycleSortLE (sortPeriods [⟨7, 100, Option.none, []⟩]) ∧
    (sortPeriods [⟨7, 100, Option.none, []⟩]).Perm [⟨7, 100, Option.none, []⟩] ∧
    (∀ e ∈ [(⟨7, 100, Option.none, []⟩ : CycleEvent)],
      e.startDate ≤ (mostRecent [⟨7, 100, Option.none, []⟩]).startDate) :=
  c3_prediction.1 [⟨7, 100, Option.none, []⟩] 0 (by decide)

/-! ### Claims about the chatbot response selector -/

/-- The "acknowledged-&lt;pendingQuestion&gt;" template set of the spec:
what `responses[lastQuestion]` denotes for each meal question. -/
def ackTemplates : QuestionType → List String
  | QuestionType.breakfast => breakfastTemplates
  | QuestionType.lunch => lunchTemplates
  | QuestionType.dinner => dinnerTemplates
  | _ => []

/-- The "missed-&lt;pendingQuestion&gt;" template set of the spec:
what ``responses[`no${lastQuestion}`]`` denotes for each meal question. -/
def missTemplates : QuestionType → List String
  | QuestionType.breakfast => nobreakfastTemplates
  | QuestionType.lunch => nolunchTemplates
  | QuestionType.dinner => nodinnerTemplates
  | _ => []

/-- **C1.** Any input containing a crisis keyword makes `getResponse`
fire the emergency callback, reply from the crisis template set and skip
every later rule, whatever the pending question; in particular, with a
pending `breakfast` question, "no, I want to die" takes the crisis path
and not the missed-breakfast reply. -/
theorem c1_crisis_preempts :
    (∀ (msg : String) (q : QuestionType) (rnd : Nat),
        hasCrisisKeyword (lowerStr msg) = true →
        getResponse msg q rnd = some ⟨pick crisisTemplates rnd, q, true⟩ ∧
        pick crisisTemplates rnd ∈ crisisTemplates) ∧
    (∀ rnd : Nat, ∃ r, getResponse "no, I want to die" QuestionType.breakfast rnd = some r ∧
        r.emergency = true ∧ r.reply ∈ crisisTemplates ∧ r.reply ∉ nobreakfastTemplates) := by
  have main : ∀ (msg : String) (q : QuestionType) (rnd : Nat),
      hasCrisisKeyword (lowerStr msg) = true →
      getResponse msg q rnd = some ⟨pick crisisTemplates rnd, q, true⟩ ∧
      pick crisisTemplates rnd ∈ crisisTemplates := by
    intro msg q rnd h
    unfold getResponse
    rw [if_pos h]
    exact ⟨rfl, pick_mem _ _ (by decide)⟩
  refine ⟨main, ?_⟩
  intro rnd
  have h := main "no, I want to die" QuestionType.breakfast rnd (by decide)
  refine ⟨⟨pick crisisTemplates rnd, QuestionType.breakfast, true⟩, h.1, rfl, h.2, ?_⟩
  have hd : ∀ x ∈ crisisTemplates, x ∉ nobreakfastTemplates := by decide
  exact hd _ h.2

/-- Witness for C1 at a concrete crisis input. -/
theorem c1_crisis_preempts_witness :
    getResponse "I feel dead inside" QuestionType.lunch 1 =
      some ⟨pick crisisTemplates 1, QuestionType.lunch, true⟩ ∧
    pick crisisTemplates 1 ∈ crisisTemplates :=
  c1_crisis_preempts.1 "I feel dead inside" QuestionType.lunch 1 (by decide)

/-- **C4.** `getResponse` is total over all input strings and all contexts
the component can be in (`lastQuestion` is never set to the vestigial
`mood` variant), and every reply is non-empty. -/
theorem c4_total (msg : String) (q : QuestionType) (rnd : Nat)
    (hq : q ≠ QuestionType.mood) :
    ∃ r, getResponse msg q rnd = some r ∧ r.reply ≠ "" := by
  unfold getResponse
  by_cases hc : hasCrisisKeyword (lowerStr msg) = true
  · rw [if_pos hc]
    exact ⟨_, rfl, pick_ne _ _ (by decide) (by decide)⟩
  · rw [if_neg hc]
    by_cases ha : q ≠ QuestionType.none ∧ affirmHit (lowerStr msg) = true
    · rw [if_pos ha]
      cases q with
      | breakfast => exact ⟨_, rfl, pick_ne _ _ (by decide) (by decide)⟩
      | lunch => exact ⟨_, rfl, pick_ne _ _ (by decide) (by decide)⟩
      | dinner => exact ⟨_, rfl, pick_ne _ _ (by decide) (by decide)⟩
      | mood => exact absurd rfl hq
      | none => exact absurd rfl ha.1
    · rw [if_neg ha]
      by_cases hn : q ≠ QuestionType.none ∧ negHit (lowerStr msg) = true
      · rw [if_pos hn]
        cases q with
        | breakfast => exact ⟨_, rfl, pick_ne _ _ (by decide) (by decide)⟩
        | lunch => exact ⟨_, rfl, pick_ne _ _ (by decide) (by decide)⟩
        | dinner => exact ⟨_, rfl, pick_ne _ _ (by decide) (by decide)⟩
        | mood => exact absurd rfl hq
        | none => exact absurd rfl hn.1
      · rw [if_neg hn]
        exact ⟨_, rfl, generalResponse_ne _ _⟩

/-- Witness for C4 on a non-ASCII input with no pending question. -/
theorem c4_total_witness :
    ∃ r, getResponse "héllo 💙" QuestionType.none 3 = some r ∧ r.reply ≠ "" :=
  c4_total "héllo 💙" QuestionType.none 3 (by decide)

/-- **C5.** With a pending meal question and a non-crisis input: an
affirmative token yields an acknowledged-reply and clears the pending
question; otherwise a negative token yields a missed-reply and clears it;
with neither token the general keyword matcher answers and the pending
question survives.  Concretely, pending `lunch` and "yeah I did" yield an
acknowledged-lunch reply and clear the question. -/
theorem c5_pending_resolution :
    (∀ (msg : String) (q : QuestionType) (rnd : Nat),
        (q = QuestionType.breakfast ∨ q = QuestionType.lunch ∨ q = QuestionType.dinner) →
        hasCrisisKeyword (lowerStr msg) = false →
        ((affirmHit (lowerStr msg) = true →
            ∃ r, getResponse msg q rnd = some r ∧ r.reply ∈ ackTemplates q ∧
              r.newPending = QuestionType.none) ∧
         (affirmHit (lowerStr msg) = false → negHit (lowerStr msg) = true →
            ∃ r, getResponse msg q rnd = some r ∧ r.reply ∈ missTemplates q ∧
              r.newPending = QuestionType.none) ∧
         (affirmHit (lowerStr msg) = false → negHit (lowerStr msg) = false →
            getResponse msg q rnd =
              some ⟨generalResponse (lowerStr msg) rnd, q, false⟩))) ∧
    (∀ rnd : Nat, ∃ r, getResponse "yeah I did" QuestionType.lunch rnd = some r ∧
        r.reply ∈ lunchTemplates ∧ r.newPending = QuestionType.none) := by
  have main : ∀ (msg : String) (q : QuestionType) (rnd : Nat),
      (q = QuestionType.breakfast ∨ q = QuestionType.lunch ∨ q = QuestionType.dinner) →
      hasCrisisKeyword (lowerStr msg) = false →
      ((affirmHit (lowerStr msg) = true →
          ∃ r, getResponse msg q rnd = some r ∧ r.reply ∈ ackTemplates q ∧
            r.newPending = QuestionType.none) ∧
       (affirmHit (lowerStr msg) = false → negHit (lowerStr msg) = true →
          ∃ r, getResponse msg q rnd = some r ∧ r.reply ∈ missTemplates q ∧
            r.newPending = QuestionType.none) ∧
       (affirmHit (lowerStr msg) = false → negHit (lowerStr msg) = false →
          getResponse msg q rnd =
            some ⟨generalResponse (lowerStr msg) rnd, q, false⟩)) := by
    intro msg q rnd hq hc
    have hqn : q ≠ QuestionType.none := by
      rcases hq with h | h | h <;> subst h <;> decide
    refine ⟨?_, ?_, ?_⟩
    · intro haf
      unfold getResponse
      rw [if_neg (by simp [hc]), if_pos ⟨hqn, haf⟩]
      rcases hq with h | h | h <;> subst h
      · exact ⟨_, rfl, pick_mem _ _ (by decide), rfl⟩
      · exact ⟨_, rfl, pick_mem _ _ (by decide), rfl⟩
      · exact ⟨_, rfl, pick_mem _ _ (by decide), rfl⟩
    · intro haf hng
      unfold getResponse
      rw [if_neg (by simp [hc]), if_neg (by simp [haf]), if_pos ⟨hqn, hng⟩]
      rcases hq with h | h | h <;> subst h
      · exact ⟨_, rfl, pick_mem _ _ (by decide), rfl⟩
      · exact ⟨_, rfl, pick_mem _ _ (by decide), rfl⟩
      · exact ⟨_, rfl, pick_mem _ _ (by decide), rfl⟩
    · intro haf hng
      unfold getResponse
      rw [if_neg (by simp [hc]), if_neg (by simp [haf]), if_neg (by simp [hng])]
  refine ⟨main, ?_⟩
  intro rnd
  exact (main "yeah I did" QuestionType.lunch rnd (Or.inr (Or.inl rfl))
    (by decide)).1 (by decide)

/-- Witness for C5: pending `lunch`, input "yeah I did". -/
theorem c5_pending_resolution_witness :
    ∃ r, getResponse "yeah I did" QuestionType.lunch 0 = some r ∧
      r.reply ∈ ackTemplates QuestionType.lunch ∧ r.newPending = QuestionType.none :=
  (c5_pending_resolution.1 "yeah I did" QuestionType.lunch 0 (Or.inr (Or.inl rfl))
    (by decide)).1 (by decide)

/-- **C9.** The general keyword table is evaluated in fixed order
(fun-fact, sad, happy, stressed, anxious) by substring containment on the
lower-cased input; the earliest matching topic answers, and with no match
the default set answers.  Concretely, "tell me a fun fact" with no pending
question draws from the fun-fact set (time of day is not an input of
`getResponse` at all). -/
theorem c9_keyword_order :
    (∀ (m : String) (rnd : Nat), funfactTrigger m = true →
        generalResponse m rnd ∈ funfactTemplates) ∧
    (∀ (m : String) (rnd : Nat), funfactTrigger m = false → sadTrigger m = true →
        generalResponse m rnd ∈ sadTemplates) ∧
    (∀ (m : String) (rnd : Nat), funfactTrigger m = false → sadTrigger m = false →
        happyTrigger m = true → generalResponse m rnd ∈ happyTemplates) ∧
    (∀ (m : String) (rnd : Nat), funfactTrigger m = false → sadTrigger m = false →
        happyTrigger m = false → stressedTrigger m = true →
        generalResponse m rnd ∈ stressedTemplates) ∧
    (∀ (m : String) (rnd : Nat), funfactTrigger m = false → sadTrigger m = false →
        happyTrigger m = false → stressedTrigger m = false → anxiousTrigger m = true →
        generalResponse m rnd ∈ anxiousTemplates) ∧
    (∀ (m : String) (rnd : Nat), funfactTrigger m = false → sadTrigger m = false →
        happyTrigger m = false → stressedTrigger m = false → anxiousTrigger m = false →
        generalResponse m rnd ∈ defaultTemplates) ∧
    (∀ rnd : Nat, ∃ r, getResponse "tell me a fun fact" QuestionType.none rnd = some r ∧
        r.reply ∈ funfactTemplates) := by
  refine ⟨?_, ?_, ?_, ?_, ?_, ?_, ?_⟩
  · intro m rnd h1
    unfold generalResponse
    rw [if_pos h1]
    exact pick_mem _ _ (by decide)
  · intro m rnd h1 h2
    unfold generalResponse
    rw [if_neg (by simp [h1]), if_pos h2]
    exact pick_mem _ _ (by decide)
  · intro m rnd h1 h2 h3
    unfold generalResponse
    rw [if_neg (by simp [h1]), if_neg (by simp [h2]), if_pos h3]
    exact pick_mem _ _ (by decide)
  · intro m rnd h1 h2 h3 h4
    unfold generalResponse
    rw [if_neg (by simp [h1]), if_neg (by simp [h2]), if_neg (by simp [h3]), if_pos h4]
    exact pick_mem _ _ (by decide)
  · intro m rnd h1 h2 h3 h4 h5
    unfold generalResponse
    rw [if_neg (by simp [h1]), if_neg (by simp [h2]), if_neg (by simp [h3]),
      if_neg (by simp [h4]), if_pos h5]
    exact pick_mem _ _ (by decide)
  · intro m rnd h1 h2 h3 h4 h5
    unfold generalResponse
    rw [if_neg (by simp [h1]), if_neg (by simp [h2]), if_neg (by simp [h3]),
      if_neg (by simp [h4]), if_neg (by simp [h5])]
    exact pick_mem _ _ (by decide)
  · intro rnd
    have hstep : getResponse "tell me a fun fact" QuestionType.none rnd =
        some ⟨generalResponse (lowerStr "tell me a fun fact") rnd, QuestionType.none, false⟩ := by
      unfold getResponse
      rw [if_neg (by decide), if_neg (fun hh => hh.1 rfl), if_neg (fun hh => hh.1 rfl)]
    refine ⟨_, hstep, ?_⟩
    show generalResponse (lowerStr "tell me a fun fact") rnd ∈ funfactTemplates
    unfold generalResponse
    rw [if_pos (by decide)]
    exact pick_mem _ _ (by decide)

/-- Witness for C9 at a sad-topic input that matches no earlier topic. -/
theorem c9_keyword_order_witness :
    generalResponse "i feel sad today" 0 ∈ sadTemplates :=
  c9_keyword_order.2.1 "i feel sad today" 0 (by decide) (by decide)

end Lucerna
